import Mathlib

/-!
Verification development for the TORAX nonlinear implicit time-step solver
(`torax/stepper/stepper.py`, `torax/stepper/nonlinear_theta_method.py`).

The data model and operations below are a shallow embedding of the source.
Machine floats are modelled by rationals; a residual norm is `Option ℚ`,
with `none` standing for a non-finite (NaN/Inf) value.  Code of the
repository that is referenced but not part of the source tree (the
`torax.fvm` solve blocks, `torax.state` containers and
`torax.update_state.update_core_profiles`) is modelled from the spec and
marked as such in its doc comment.
-/

/-- A flat solver vector / per-cell value array (floats modelled as ℚ). -/
abbrev Vec := List ℚ

/-- Modelled from the spec: a Grid Variable's per-cell value array
(`torax.fvm.CellVariable` is not under src). -/
abbrev CellVar := List ℚ

/-- Modelled from the spec: the Profile State container of the four named
fields (`torax.state.CoreProfiles` is not under src). -/
structure CoreProfiles where
  temp_ion : CellVar
  temp_el : CellVar
  psi : CellVar
  ne : CellVar
deriving DecidableEq, Repr

/-- Modelled from the spec: grid geometry; only the cell count matters for
the zero snapshots (`torax.geometry` is not under src). -/
structure Geometry where
  nCells : Nat
deriving DecidableEq, Repr

/-- Modelled from the spec: the diagnostic transport snapshot
(`torax.state.CoreTransport` is not under src). -/
abbrev CoreTransport := List ℚ

/-- Modelled from the spec: `state.CoreTransport.zeros(geo)`, an all-zero
transport snapshot. -/
def CoreTransport.zeros (geo : Geometry) : CoreTransport :=
  List.replicate geo.nCells 0

/-- Modelled from the spec: the auxiliary output container
(`torax.state.AuxOutput` is not under src). -/
abbrev AuxOutput := List ℚ

/-- Modelled from the spec: `state.AuxOutput.zeros(geo)`, an all-zero
auxiliary output. -/
def AuxOutput.zeros (geo : Geometry) : AuxOutput :=
  List.replicate geo.nCells 0

/-- The four boolean evolution flags of the static config slice
(`config_slice.StaticConfigSlice` as read by `Stepper.__call__`). -/
structure StaticConfigSlice where
  ion_heat_eq : Bool
  el_heat_eq : Bool
  current_eq : Bool
  dens_eq : Bool
deriving DecidableEq, Repr

/-- The fixed field order used by `Stepper.__call__`. -/
def fieldOrder : List String := ["temp_ion", "temp_el", "psi", "ne"]

/-- `Stepper.__call__` lines 106-115: build the evolving-variable selection
by appending each flagged name in the fixed order. -/
def evolvingNames (c : StaticConfigSlice) : List String :=
  (if c.ion_heat_eq then ["temp_ion"] else []) ++
  (if c.el_heat_eq then ["temp_el"] else []) ++
  (if c.current_eq then ["psi"] else []) ++
  (if c.dens_eq then ["ne"] else [])

/-- The configuration flag governing a given field name. -/
def flagOf (c : StaticConfigSlice) (name : String) : Bool :=
  if name = "temp_ion" then c.ion_heat_eq
  else if name = "temp_el" then c.el_heat_eq
  else if name = "psi" then c.current_eq
  else if name = "ne" then c.dens_eq
  else false

/-- Modelled from the spec: `core_profiles[name]`, reading a named field of
the profile container (`torax.state` is not under src). -/
def CoreProfiles.getField (cp : CoreProfiles) (name : String) : CellVar :=
  if name = "temp_ion" then cp.temp_ion
  else if name = "temp_el" then cp.temp_el
  else if name = "psi" then cp.psi
  else if name = "ne" then cp.ne
  else []

/-- Modelled from the spec: writing a named field of the profile container;
an unknown name leaves the container unchanged. -/
def CoreProfiles.setField (cp : CoreProfiles) (name : String) (v : CellVar) :
    CoreProfiles :=
  if name = "temp_ion" then { cp with temp_ion := v }
  else if name = "temp_el" then { cp with temp_el := v }
  else if name = "psi" then { cp with psi := v }
  else if name = "ne" then { cp with ne := v }
  else cp

/-- `x_old = tuple([core_profiles_t[name] for name in evolving_names])`
(`nonlinear_theta_method.py` line 268): extract the t-state vector in the
evolving-name order. -/
def extractVec (cp : CoreProfiles) (names : List String) : List CellVar :=
  names.map (fun n => cp.getField n)

/-- Modelled from the spec: `update_state.update_core_profiles` is not under
src; per the spec it merges the returned variable values into the t+dt state
in the fixed evolving-variable order, leaving non-evolving fields
untouched. -/
def update_core_profiles (cp : CoreProfiles) (xNew : List CellVar)
    (names : List String) : CoreProfiles :=
  (names.zip xNew).foldl (fun acc p => acc.setField p.1 p.2) cp

/-- The message of the `NotImplementedError` raised by the abstract
`Stepper._x_new` (`stepper.py` lines 201-205). -/
def notImplementedMsg : String :=
  "must implement x_new or implement a different call that does not need x_new"

/-- A Stepper instance: `xNew` is the `_x_new` implementation a concrete
subclass provides; `none` models the abstract base class, whose `_x_new`
raises `NotImplementedError`. -/
structure Stepper where
  xNew : Option (List String → CoreProfiles →
    List CellVar × CoreTransport × AuxOutput × Nat)

/-- `Stepper.__call__` (`stepper.py` lines 105-148): derive the
evolving-variable selection from the flags; on an empty selection skip the
solve and return zero snapshots with outcome 0; otherwise dispatch to
`_x_new` (raising if absent) and merge its output into the t+dt state. -/
def Stepper.call (s : Stepper) (cfg : StaticConfigSlice)
    (cp_t cp_tpdt : CoreProfiles) (geo : Geometry) :
    Except String (CoreProfiles × CoreTransport × AuxOutput × Nat) :=
  let names := evolvingNames cfg
  if names = [] then
    Except.ok (update_core_profiles cp_tpdt [] names,
      CoreTransport.zeros geo, AuxOutput.zeros geo, 0)
  else
    match s.xNew with
    | none => Except.error notImplementedMsg
    | some f =>
      let r := f names cp_t
      Except.ok (update_core_profiles cp_tpdt r.1 names, r.2.1, r.2.2.1, r.2.2.2)

/-- Pointwise vector addition. -/
def vecAdd (a b : Vec) : Vec := List.zipWith (fun x y => x + y) a b

/-- Scaling a vector by a damping factor. -/
def vecScale (c : ℚ) (v : Vec) : Vec := v.map (fun x => c * x)

/-- Whether stepping from `x` by `τ·dx` yields a finite residual norm
strictly below `r0` (a damped step the inner loop accepts). -/
def improvesB (residNorm : Vec → Option ℚ) (x dx : Vec) (r0 τ : ℚ) : Bool :=
  match residNorm (vecAdd x (vecScale τ dx)) with
  | some r => decide (r < r0)
  | none => false

/-- Modelled from the spec: the sequence of damping factors the inner loop
tries, starting from `τ0` and shrinking by the reduction factor `ρ`; the
sequence stops once the factor falls below `tauMin`.  `fuel` only bounds the
recursion and is taken large enough in every use. -/
def dampingTaus (ρ tauMin : ℚ) : Nat → ℚ → List ℚ
  | 0, _ => []
  | fuel + 1, τ =>
    if τ < tauMin then [] else τ :: dampingTaus ρ tauMin fuel (τ * ρ)

/-- Modelled from the spec: the damped-acceptance inner loop of
`newton_raphson_solve_block` (not under src).  It walks the candidate
damping factors in order and accepts the first whose residual norm is
finite and strictly improves on `r0`; it returns `none` when no candidate
is acceptable. -/
def dampedLineSearch (residNorm : Vec → Option ℚ) (x dx : Vec) (r0 : ℚ) :
    List ℚ → Option (Vec × ℚ)
  | [] => none
  | τ :: rest =>
    match residNorm (vecAdd x (vecScale τ dx)) with
    | some r =>
      if r < r0 then some (vecAdd x (vecScale τ dx), τ)
      else dampedLineSearch residNorm x dx r0 rest
    | none => dampedLineSearch residNorm x dx r0 rest

/-- How an outer Newton-Raphson loop run ended. -/
inductive NRExit where
  | converged
  | exhausted
  | dampingFailed
  | nonFinite
deriving DecidableEq, Repr

/-- The tunables of `newton_raphson_solve_block`, as forwarded by
`NewtonRaphsonThetaMethod._x_new_helper`. -/
structure NewtonCfg where
  maxiter : Nat
  tol : ℚ
  coarse_tol : ℚ
  delta_reduction_factor : ℚ
  tau_min : ℚ
deriving DecidableEq, Repr

/-- Modelled from the spec: the outer Newton-Raphson loop (steps 2a-2f of
the spec's algorithm).  `residNorm` evaluates the residual norm via the
coefficient callback (`none` = non-finite), `newtonStep` is the full Newton
step Δx obtained from the Jacobian linear solve, and `fuel` bounds the
damping recursion.  Returns the final iterate and the exit reason. -/
def newtonLoopEx (residNorm : Vec → Option ℚ) (newtonStep : Vec → Vec)
    (cfg : NewtonCfg) (fuel : Nat) : Nat → Vec → Vec × NRExit
  | 0, x => (x, NRExit.exhausted)
  | n + 1, x =>
    match residNorm x with
    | none => (x, NRExit.nonFinite)
    | some r =>
      if r < cfg.tol then (x, NRExit.converged)
      else
        match dampedLineSearch residNorm x (newtonStep x) r
            (dampingTaus cfg.delta_reduction_factor cfg.tau_min fuel 1) with
        | none => (x, NRExit.dampingFailed)
        | some p => newtonLoopEx residNorm newtonStep cfg fuel n p.1

/-- Modelled from the spec: the outcome code derived from the exit reason;
convergence gives 0, exhaustion gives 0 only when the final residual norm
is finite and below the coarse tolerance, every numerical or damping
failure collapses to 1. -/
def exitOutcome (residNorm : Vec → Option ℚ) (coarseTol : ℚ) (x : Vec) :
    NRExit → Nat
  | NRExit.converged => 0
  | NRExit.exhausted =>
    match residNorm x with
    | some r => if r < coarseTol then 0 else 1
    | none => 1
  | NRExit.dampingFailed => 1
  | NRExit.nonFinite => 1

/-- Modelled from the spec: `fvm.newton_raphson_solve_block` (not under
src).  An iteration budget of zero degenerates to returning the initial
guess unchanged with outcome 0; otherwise the outer loop runs and its exit
reason is collapsed to the binary outcome. -/
def newton_raphson_solve_block (residNorm : Vec → Option ℚ)
    (newtonStep : Vec → Vec) (cfg : NewtonCfg) (fuel : Nat) (x0 : Vec) :
    Vec × Nat :=
  if cfg.maxiter = 0 then (x0, 0)
  else
    let res := newtonLoopEx residNorm newtonStep cfg fuel cfg.maxiter x0
    (res.1, exitOutcome residNorm cfg.coarse_tol res.1 res.2)

/-- Modelled from the spec: the bounded quasi-Newton iteration of the
residual-minimization strategy; `update` is one optimizer step on the flat
vector and `loss` the squared residual norm. -/
def optimizerLoop (update : Vec → Vec) (loss : Vec → ℚ) (tol : ℚ) :
    Nat → Vec → Vec × Nat
  | 0, x => (x, if loss x < tol then 0 else 1)
  | n + 1, x =>
    if loss x < tol then (x, 0)
    else optimizerLoop update loss tol n (update x)

/-- Modelled from the spec: `fvm.optimizer_solve_block` (not under src).
An iteration budget of zero degenerates to returning the initial guess
unchanged with outcome 0. -/
def optimizer_solve_block (update : Vec → Vec) (loss : Vec → ℚ) (tol : ℚ)
    (maxiter : Nat) (x0 : Vec) : Vec × Nat :=
  if maxiter = 0 then (x0, 0)
  else optimizerLoop update loss tol maxiter x0

/-- Modelled from the spec: the solve block's own default minimum damping
factor, `newton_raphson_solve_block.TAU_MIN` (not under src). -/
def defaultTauMin : ℚ := 1 / 100

/-- True when the bound callback class is a subclass of
`sim.FrozenCoeffsCallback` (`NonlinearThetaMethod._artificially_linear`,
lines 124-128). -/
def NonlinearThetaMethod.artificiallyLinear (frozenCallback : Bool) : Bool :=
  if frozenCallback then true else false

/-- The constructor-stored configuration of `OptimizerThetaMethod`;
`frozenCallback` models `issubclass(callback_class, FrozenCoeffsCallback)`. -/
structure OptimizerThetaMethod where
  maxiter : Nat
  tol : ℚ
  frozenCallback : Bool
deriving DecidableEq, Repr

/-- `OptimizerThetaMethod._artificially_linear` (lines 197-201): true on a
zero iteration budget, else defer to the base class. -/
def OptimizerThetaMethod.artificiallyLinear (s : OptimizerThetaMethod) : Bool :=
  if s.maxiter = 0 then true
  else NonlinearThetaMethod.artificiallyLinear s.frozenCallback

/-- The constructor-stored configuration of `NewtonRaphsonThetaMethod`
(`__init__`, lines 218-236): note that `tau_min` is stored. -/
structure NewtonRaphsonThetaMethod where
  maxiter : Nat
  tol : ℚ
  coarse_tol : ℚ
  delta_reduction_factor : ℚ
  tau_min : ℚ
  frozenCallback : Bool
deriving DecidableEq, Repr

/-- `NewtonRaphsonThetaMethod._artificially_linear` (lines 285-289). -/
def NewtonRaphsonThetaMethod.artificiallyLinear
    (s : NewtonRaphsonThetaMethod) : Bool :=
  if s.maxiter = 0 then true
  else NonlinearThetaMethod.artificiallyLinear s.frozenCallback

/-- `NewtonRaphsonThetaMethod._x_new_helper` (lines 238-283): forwards
`maxiter`, `tol`, `coarse_tol` and `delta_reduction_factor` to
`newton_raphson_solve_block`, but not `self.tau_min`, so the solve block
runs with its own default minimum damping factor. -/
def NewtonRaphsonThetaMethod.xNewHelper (s : NewtonRaphsonThetaMethod)
    (residNorm : Vec → Option ℚ) (newtonStep : Vec → Vec) (fuel : Nat)
    (x0 : Vec) : Vec × Nat :=
  newton_raphson_solve_block residNorm newtonStep
    ⟨s.maxiter, s.tol, s.coarse_tol, s.delta_reduction_factor, defaultTauMin⟩
    fuel x0

/-- A residual-norm map for which no damped step ever improves. -/
def residConst5 : Vec → Option ℚ := fun _ => some 5

/-- A fixed Newton step proposal used in concrete runs. -/
def stepOne : Vec → Vec := fun _ => [1]

/-- A Newton configuration with a single outer iteration. -/
def cfgOne : NewtonCfg := ⟨1, 1, 10, 1 / 2, 1 / 100⟩

/-- A residual norm that shrinks along the first coordinate. -/
def residAffine : Vec → Option ℚ := fun v => some (3 - v.headD 0)

/-- A concrete stepper whose solve returns a fixed ion-temperature value. -/
def stepperW : Stepper := ⟨some (fun _ _ => ([[7]], [], [], 0))⟩

/-- A config evolving only the ion temperature. -/
def cfgIonOnly : StaticConfigSlice := ⟨true, false, false, false⟩

/-- A config evolving every field. -/
def cfgAllOn : StaticConfigSlice := ⟨true, true, true, true⟩

/-- A config evolving no field. -/
def cfgAllOff : StaticConfigSlice := ⟨false, false, false, false⟩

/-- A concrete t-state profile container. -/
def cpA : CoreProfiles := ⟨[1], [2], [3], [4]⟩

/-- A concrete prescribed t+dt profile container. -/
def cpB : CoreProfiles := ⟨[5], [6], [7], [8]⟩

/-- A concrete two-cell geometry. -/
def geoW : Geometry := ⟨2⟩

/-! Helper lemmas. -/

theorem dampingTaus_getD (ρ tauMin : ℚ) :
    ∀ (fuel : Nat) (τ0 : ℚ) (k : Nat),
      k < (dampingTaus ρ tauMin fuel τ0).length →
      (dampingTaus ρ tauMin fuel τ0).getD k 0 = τ0 * ρ ^ k := by
  intro fuel
  induction fuel with
  | zero => intro τ0 k hk; simp [dampingTaus] at hk
  | succ m ih =>
    intro τ0 k hk
    by_cases hlt : τ0 < tauMin
    · simp [dampingTaus, hlt] at hk
    · simp only [dampingTaus, if_neg hlt] at hk ⊢
      cases k with
      | zero => simp
      | succ j =>
        simp only [List.getD_cons_succ]
        rw [ih (τ0 * ρ) j (by simpa using hk)]
        ring

theorem dampingTaus_mem_ge (ρ tauMin : ℚ) :
    ∀ (fuel : Nat) (τ0 τ : ℚ),
      τ ∈ dampingTaus ρ tauMin fuel τ0 → tauMin ≤ τ := by
  intro fuel
  induction fuel with
  | zero => intro τ0 τ h; simp [dampingTaus] at h
  | succ m ih =>
    intro τ0 τ h
    by_cases hlt : τ0 < tauMin
    · simp [dampingTaus, hlt] at h
    · simp only [dampingTaus, if_neg hlt, List.mem_cons] at h
      rcases h with h | h
      · exact h ▸ not_lt.mp hlt
      · exact ih (τ0 * ρ) τ h

theorem dampingTaus_below_min (ρ tauMin : ℚ) (fuel : Nat) (τ0 : ℚ)
    (h : τ0 < tauMin) : dampingTaus ρ tauMin fuel τ0 = [] := by
  cases fuel with
  | zero => rfl
  | succ m => simp [dampingTaus, h]

theorem dampingTaus_head (ρ tauMin : ℚ) (fuel : Nat) (hf : 0 < fuel)
    (h : tauMin ≤ 1) : (dampingTaus ρ tauMin fuel 1).headD 0 = 1 := by
  cases fuel with
  | zero => exact absurd hf (by simp)
  | succ m => simp [dampingTaus, not_lt.mpr h]

theorem dampedLineSearch_some (residNorm : Vec → Option ℚ) (x dx : Vec)
    (r0 : ℚ) :
    ∀ (cands : List ℚ) (x1 : Vec) (τ : ℚ),
      dampedLineSearch residNorm x dx r0 cands = some (x1, τ) →
      x1 = vecAdd x (vecScale τ dx) ∧
      improvesB residNorm x dx r0 τ = true ∧
      ∃ k, k < cands.length ∧ cands.getD k 0 = τ ∧
        ∀ j, j < k → improvesB residNorm x dx r0 (cands.getD j 0) = false := by
  intro cands
  induction cands with
  | nil => intro x1 τ h; simp [dampedLineSearch] at h
  | cons c rest ih =>
    intro x1 τ h
    simp only [dampedLineSearch] at h
    split at h
    · rename_i r hR
      by_cases hlt : r < r0
      · rw [if_pos hlt] at h
        simp only [Option.some.injEq, Prod.mk.injEq] at h
        obtain ⟨hx1, hτ⟩ := h
        subst hτ
        refine ⟨hx1.symm, by simp [improvesB, hR, hlt], 0, by simp, rfl, ?_⟩
        intro j hj
        omega
      · rw [if_neg hlt] at h
        obtain ⟨hx, hi, k, hk, hτ, hprev⟩ := ih x1 τ h
        refine ⟨hx, hi, k + 1, by simpa using hk, by simpa using hτ, ?_⟩
        intro j hj
        cases j with
        | zero => simp [improvesB, hR, hlt]
        | succ j0 => exact hprev j0 (by omega)
    · rename_i hR
      obtain ⟨hx, hi, k, hk, hτ, hprev⟩ := ih x1 τ h
      refine ⟨hx, hi, k + 1, by simpa using hk, by simpa using hτ, ?_⟩
      intro j hj
      cases j with
      | zero => simp [improvesB, hR]
      | succ j0 => exact hprev j0 (by omega)

theorem getField_setField_self (cp : CoreProfiles) (n : String) :
    cp.setField n (cp.getField n) = cp := by
  unfold CoreProfiles.setField CoreProfiles.getField
  split_ifs <;> rfl

theorem getField_setField_other (cp : CoreProfiles) (n : String) (v : CellVar)
    (name : String) (h : name ≠ n) :
    (cp.setField n v).getField name = cp.getField name := by
  unfold CoreProfiles.setField CoreProfiles.getField
  split_ifs <;> simp_all

theorem getField_update_not_mem :
    ∀ (names : List String) (xs : List CellVar) (cp : CoreProfiles)
      (name : String), name ∉ names →
      (update_core_profiles cp xs names).getField name = cp.getField name := by
  intro names
  induction names with
  | nil => intro xs cp name _; rfl
  | cons n rest ih =>
    intro xs cp name hmem
    cases xs with
    | nil => rfl
    | cons v vs =>
      have hne : name ≠ n := fun hc => hmem (hc ▸ List.mem_cons_self n rest)
      have hrest : name ∉ rest := fun hc => hmem (List.mem_cons_of_mem n hc)
      show (update_core_profiles (cp.setField n v) vs rest).getField name =
        cp.getField name
      rw [ih vs (cp.setField n v) name hrest,
        getField_setField_other cp n v name hne]

theorem update_extract_self :
    ∀ (names : List String) (cp : CoreProfiles),
      update_core_profiles cp (extractVec cp names) names = cp := by
  intro names
  induction names with
  | nil => intro cp; rfl
  | cons n rest ih =>
    intro cp
    show update_core_profiles (cp.setField n (cp.getField n))
      (extractVec cp rest) rest = cp
    rw [getField_setField_self, ih cp]

/-! Claim theorems. -/

/-- C3: when all four evolution flags are false, `Stepper.__call__` skips
the nonlinear solve (whatever `_x_new` is) and returns the prescribed t+dt
profile state unchanged, an all-zero transport snapshot, an all-zero
auxiliary output, and outcome 0. -/
theorem empty_flags_skip_solve :
    ∀ (s : Stepper) (cp_t cp_tpdt : CoreProfiles) (geo : Geometry),
      Stepper.call s ⟨false, false, false, false⟩ cp_t cp_tpdt geo =
        Except.ok (cp_tpdt, CoreTransport.zeros geo, AuxOutput.zeros geo, 0) := by
  intro s cp_t cp_tpdt geo
  rfl

/-- C4: for either nonlinear strategy, an iteration budget of zero returns
the initial-guess vector exactly unchanged with outcome 0, regardless of the
tolerances. -/
theorem zero_iteration_budget_identity :
    ∀ (update : Vec → Vec) (loss : Vec → ℚ) (tolO : ℚ)
      (residNorm : Vec → Option ℚ) (newtonStep : Vec → Vec)
      (tolN ctol ρ τmin : ℚ) (fuel : Nat) (x0 : Vec),
      optimizer_solve_block update loss tolO 0 x0 = (x0, 0) ∧
      newton_raphson_solve_block residNorm newtonStep
        ⟨0, tolN, ctol, ρ, τmin⟩ fuel x0 = (x0, 0) := by
  intro update loss tolO residNorm newtonStep tolN ctol ρ τmin fuel x0
  exact ⟨rfl, rfl⟩

/-- C5: for both concrete strategies, the artificially-linear diagnostic is
true exactly when the configured iteration budget is zero or the bound
callback class is a `FrozenCoeffsCallback` subclass, and false otherwise. -/
theorem artificiallyLinear_iff :
    ∀ (o : OptimizerThetaMethod) (nr : NewtonRaphsonThetaMethod),
      (o.artificiallyLinear = true ↔
        (o.maxiter = 0 ∨ o.frozenCallback = true)) ∧
      (nr.artificiallyLinear = true ↔
        (nr.maxiter = 0 ∨ nr.frozenCallback = true)) := by
  intro o nr
  constructor
  · unfold OptimizerThetaMethod.artificiallyLinear
      NonlinearThetaMethod.artificiallyLinear
    split_ifs <;> simp_all
  · unfold NewtonRaphsonThetaMethod.artificiallyLinear
      NonlinearThetaMethod.artificiallyLinear
    split_ifs <;> simp_all

/-- C9: the outputs of `NewtonRaphsonThetaMethod` do not depend on the
`tau_min` constructor argument: two instances differing only in `tau_min`
produce identical solve results (and the same diagnostic), because
`_x_new_helper` never forwards `self.tau_min` to the solve block, which
therefore runs with its own default minimum damping factor. -/
theorem tau_min_independence :
    ∀ (s : NewtonRaphsonThetaMethod) (t : ℚ) (residNorm : Vec → Option ℚ)
      (newtonStep : Vec → Vec) (fuel : Nat) (x0 : Vec),
      NewtonRaphsonThetaMethod.xNewHelper { s with tau_min := t }
          residNorm newtonStep fuel x0 =
        NewtonRaphsonThetaMethod.xNewHelper s residNorm newtonStep fuel x0 ∧
      NewtonRaphsonThetaMethod.artificiallyLinear { s with tau_min := t } =
        NewtonRaphsonThetaMethod.artificiallyLinear s := by
  intro s t residNorm newtonStep fuel x0
  exact ⟨rfl, rfl⟩

/-- C10: with an empty evolving-variable selection, `Stepper.__call__`
never dispatches to `_x_new`: any stepper, including the abstract base with
no `_x_new` implementation, completes with outcome 0 instead of raising. -/
theorem empty_selection_no_dispatch :
    ∀ (s : Stepper) (cfg : StaticConfigSlice) (cp_t cp_tpdt : CoreProfiles)
      (geo : Geometry),
      evolvingNames cfg = [] →
      Stepper.call s cfg cp_t cp_tpdt geo =
        Except.ok (cp_tpdt, CoreTransport.zeros geo, AuxOutput.zeros geo, 0) := by
  intro s cfg cp_t cp_tpdt geo h
  simp [Stepper.call, h, update_core_profiles]

/-- C10 witness: the abstract base stepper succeeds with outcome 0 on the
all-false configuration. -/
theorem empty_selection_no_dispatch_witness :
    Stepper.call ⟨none⟩ cfgAllOff cpA cpB geoW =
      Except.ok (cpB, CoreTransport.zeros geoW, AuxOutput.zeros geoW, 0) :=
  empty_selection_no_dispatch ⟨none⟩ cfgAllOff cpA cpB geoW (by decide)

/-- C8: a stepper that provides no `_x_new` implementation (and no
overriding `__call__`) fails fatally with the `NotImplementedError` once
dispatched on a nonempty selection; it never returns a step outcome. -/
theorem missing_x_new_raises :
    ∀ (cfg : StaticConfigSlice) (cp_t cp_tpdt : CoreProfiles) (geo : Geometry),
      evolvingNames cfg ≠ [] →
      Stepper.call ⟨none⟩ cfg cp_t cp_tpdt geo =
        Except.error notImplementedMsg ∧
      ∀ out, Stepper.call ⟨none⟩ cfg cp_t cp_tpdt geo ≠ Except.ok out := by
  intro cfg cp_t cp_tpdt geo h
  constructor
  · simp [Stepper.call, h]
  · intro out hcontra
    simp [Stepper.call, h] at hcontra

/-- C8 witness: on the all-true configuration the abstract base raises. -/
theorem missing_x_new_raises_witness :
    Stepper.call ⟨none⟩ cfgAllOn cpA cpB geoW =
      Except.error notImplementedMsg :=
  (missing_x_new_raises cfgAllOn cpA cpB geoW (by decide)).1

/-- C1: in the damped-acceptance inner loop, the damping factor starts at 1
and the k-th candidate is the reduction factor to the k-th power; no
candidate below the minimum allowed factor is tried and the candidate
sequence stops as soon as the factor falls below that minimum; the step
accepted is the first candidate whose residual norm is finite and strictly
improves; and when the inner loop is exhausted the outer iteration stops
with a damping failure, which the solve block surfaces as outcome 1. -/
theorem newton_damped_acceptance :
    ∀ (residNorm : Vec → Option ℚ) (newtonStep : Vec → Vec) (cfg : NewtonCfg)
      (fuel : Nat) (x dx : Vec) (r0 : ℚ),
      (0 < fuel → cfg.tau_min ≤ 1 →
        (dampingTaus cfg.delta_reduction_factor cfg.tau_min fuel 1).headD 0 = 1) ∧
      (∀ k, k < (dampingTaus cfg.delta_reduction_factor cfg.tau_min fuel 1).length →
        (dampingTaus cfg.delta_reduction_factor cfg.tau_min fuel 1).getD k 0 =
          cfg.delta_reduction_factor ^ k) ∧
      (∀ τ, τ ∈ dampingTaus cfg.delta_reduction_factor cfg.tau_min fuel 1 →
        cfg.tau_min ≤ τ) ∧
      (∀ τ0, τ0 < cfg.tau_min →
        dampingTaus cfg.delta_reduction_factor cfg.tau_min fuel τ0 = []) ∧
      (∀ x1 τ, dampedLineSearch residNorm x dx r0
          (dampingTaus cfg.delta_reduction_factor cfg.tau_min fuel 1) =
            some (x1, τ) →
        x1 = vecAdd x (vecScale τ dx) ∧
        improvesB residNorm x dx r0 τ = true ∧
        ∃ k, k < (dampingTaus cfg.delta_reduction_factor cfg.tau_min fuel 1).length ∧
          (dampingTaus cfg.delta_reduction_factor cfg.tau_min fuel 1).getD k 0 = τ ∧
          ∀ j, j < k → improvesB residNorm x dx r0
            ((dampingTaus cfg.delta_reduction_factor cfg.tau_min fuel 1).getD j 0) =
              false) ∧
      (∀ n y r, residNorm y = some r → ¬ r < cfg.tol →
        dampedLineSearch residNorm y (newtonStep y) r
          (dampingTaus cfg.delta_reduction_factor cfg.tau_min fuel 1) = none →
        newtonLoopEx residNorm newtonStep cfg fuel (n + 1) y =
          (y, NRExit.dampingFailed)) ∧
      (∀ x0 y, 0 < cfg.maxiter →
        newtonLoopEx residNorm newtonStep cfg fuel cfg.maxiter x0 =
          (y, NRExit.dampingFailed) →
        newton_raphson_solve_block residNorm newtonStep cfg fuel x0 = (y, 1)) := by
  intro residNorm newtonStep cfg fuel x dx r0
  refine ⟨?_, ?_, ?_, ?_, ?_, ?_, ?_⟩
  · intro hf h1
    exact dampingTaus_head cfg.delta_reduction_factor cfg.tau_min fuel hf h1
  · intro k hk
    rw [dampingTaus_getD cfg.delta_reduction_factor cfg.tau_min fuel 1 k hk]
    ring
  · intro τ hτ
    exact dampingTaus_mem_ge cfg.delta_reduction_factor cfg.tau_min fuel 1 τ hτ
  · intro τ0 h
    exact dampingTaus_below_min cfg.delta_reduction_factor cfg.tau_min fuel τ0 h
  · intro x1 τ h
    exact dampedLineSearch_some residNorm x dx r0 _ x1 τ h
  · intro n y r hR hnc hsearch
    simp only [newtonLoopEx, hR, if_neg hnc, hsearch]
  · intro x0 y hpos hloop
    unfold newton_raphson_solve_block
    rw [if_neg (Nat.pos_iff_ne_zero.mp hpos)]
    rw [hloop]
    rfl

/-- C1 witness: on a problem where no damping factor improves the constant
residual, the solve block fails with outcome 1. -/
theorem newton_damped_acceptance_witness :
    newton_raphson_solve_block residConst5 stepOne cfgOne 3 [0] = ([0], 1) :=
  (newton_damped_acceptance residConst5 stepOne cfgOne 3 [0] [1]
    5).2.2.2.2.2.2 [0] [0] (by decide)
    (by norm_num [newtonLoopEx, dampedLineSearch, dampingTaus, residConst5,
      stepOne, cfgOne, vecAdd, vecScale])

/-- C2: whenever the Newton-Raphson outer loop exhausts a positive
iteration budget, the returned outcome is 0 if the final residual norm is
finite and below the coarse tolerance, and 1 otherwise. -/
theorem newton_exhaustion_coarse_outcome :
    ∀ (residNorm : Vec → Option ℚ) (newtonStep : Vec → Vec) (cfg : NewtonCfg)
      (fuel : Nat) (x0 y : Vec),
      0 < cfg.maxiter →
      newtonLoopEx residNorm newtonStep cfg fuel cfg.maxiter x0 =
        (y, NRExit.exhausted) →
      newton_raphson_solve_block residNorm newtonStep cfg fuel x0 =
        (y, match residNorm y with
            | some r => if r < cfg.coarse_tol then 0 else 1
            | none => 1) := by
  intro residNorm newtonStep cfg fuel x0 y hpos hloop
  unfold newton_raphson_solve_block
  rw [if_neg (Nat.pos_iff_ne_zero.mp hpos)]
  rw [hloop]
  rfl

/-- C2 witness: a solve whose single outer iteration advances once and then
exhausts the budget with a residual under the coarse tolerance ends with
outcome 0. -/
theorem newton_exhaustion_coarse_outcome_witness :
    newton_raphson_solve_block residAffine stepOne cfgOne 5 [0] = ([1], 0) :=
  (newton_exhaustion_coarse_outcome residAffine stepOne cfgOne 5 [0] [1]
    (by decide)
    (by norm_num [newtonLoopEx, dampedLineSearch, dampingTaus, residAffine,
      stepOne, cfgOne, vecAdd, vecScale])).trans
    (by norm_num [residAffine, cfgOne])

/-- C6: every successful `Stepper.__call__` overwrites only the fields in
the evolving-variable selection; every other field of the returned t+dt
profile state keeps exactly the value the caller prescribed. -/
theorem nonEvolving_fields_preserved :
    ∀ (s : Stepper) (cfg : StaticConfigSlice) (cp_t cp_tpdt : CoreProfiles)
      (geo : Geometry) (out : CoreProfiles × CoreTransport × AuxOutput × Nat)
      (name : String),
      Stepper.call s cfg cp_t cp_tpdt geo = Except.ok out →
      name ∉ evolvingNames cfg →
      CoreProfiles.getField out.1 name = CoreProfiles.getField cp_tpdt name := by
  intro s cfg cp_t cp_tpdt geo out name hcall hmem
  unfold Stepper.call at hcall
  by_cases hempty : evolvingNames cfg = []
  · rw [if_pos hempty] at hcall
    simp only [Except.ok.injEq] at hcall
    rw [← hcall]
    exact getField_update_not_mem (evolvingNames cfg) [] cp_tpdt name hmem
  · rw [if_neg hempty] at hcall
    cases hx : s.xNew with
    | none => rw [hx] at hcall; exact absurd hcall (by simp)
    | some f =>
      rw [hx] at hcall
      simp only [Except.ok.injEq] at hcall
      rw [← hcall]
      exact getField_update_not_mem (evolvingNames cfg)
        (f (evolvingNames cfg) cp_t).1 cp_tpdt name hmem

/-- C6 witness: with only the ion temperature evolving, the electron
density field of the merged output equals the prescribed one. -/
theorem nonEvolving_fields_preserved_witness :
    CoreProfiles.getField (⟨[7], [6], [7], [8]⟩ : CoreProfiles) "ne" =
      CoreProfiles.getField cpB "ne" :=
  nonEvolving_fields_preserved stepperW cfgIonOnly cpA cpB geoW
    ((⟨[7], [6], [7], [8]⟩ : CoreProfiles), ([] : CoreTransport),
      ([] : AuxOutput), 0) "ne" rfl (by decide)

/-- C7: the evolving-variable selection is exactly the subsequence of the
fixed field order containing the flagged fields, and unpacking a profile
into a vector in that name order and repacking it unchanged reproduces the
profile exactly, so extraction and repacking agree on the order. -/
theorem evolving_order_consistency :
    ∀ (c : StaticConfigSlice) (cp : CoreProfiles) (names : List String),
      evolvingNames c = fieldOrder.filter (fun n => flagOf c n) ∧
      update_core_profiles cp (extractVec cp names) names = cp := by
  intro c cp names
  constructor
  · rcases c with ⟨i, e, p, d⟩
    cases i <;> cases e <;> cases p <;> cases d <;> rfl
  · exact update_extract_self names cp
